import Mathlib

/-!
Shallow embedding of `src/examples/view-plugins/date-relative.py`.

The script reads one JSON document from stdin, selects a date field
(`due_date` or `start_date` or `created`, Python `or` chain), formats it as a
relative-day label with `format_relative_date`, and prints the result.  Any
exception around the top-level read is reported as `Error: <e>` on stderr with
exit status 1.

Modelling decisions:
* JSON values are `JValue`; Python `None` (both JSON `null` and a missing key
  returned by `dict.get`) is `JValue.null`.
* Instants are integers counting microseconds since the Unix epoch
  (CPython datetimes have microsecond resolution).
* `datetime.fromisoformat` is embedded as `parseISO` over the character list,
  covering the grammar
  `YYYY-MM-DD[<sep>HH[:MM[:SS[.f{1,6}]]][+-HH:MM[:SS[.f{1,6}]]]]`
  accepted by CPython (fraction widths as in 3.11+, the interpreter family in
  use; pre-3.11 required exactly 3 or 6 digits), with range validation as in
  CPython.  This is the version-portable core: CPython 3.11+ additionally
  accepts basic-format dates, week dates and bare `±HH`/`±HHMM` offsets,
  which are not modelled, so parse-failure statements are read over this
  portable grammar.  A parsed value is a `PyDateTime`: naive microseconds
  plus an optional UTC offset in microseconds (`none` for a naive datetime).
* `date - now` with `now = datetime.now(timezone.utc)` (aware) raises
  `TypeError` when `date` is naive; the script's `except` then returns the
  original string.  For aware dates `timedelta.days` is floor division of the
  microsecond difference by a day, embedded with `Int.fdiv`.
-/

inductive JValue where
  | null : JValue
  | bool (b : Bool) : JValue
  | num (n : Int) : JValue
  | str (s : String) : JValue
  | arr (l : List JValue) : JValue
  | obj (fields : List (String × JValue)) : JValue

/-- Python truthiness of a JSON-decoded value: `None`, `False`, `0`, `""`,
`[]` and the empty dict are falsy. -/
def truthy : JValue → Bool
  | .null => false
  | .bool b => b
  | .num n => n != 0
  | .str s => s != ""
  | .arr l => !l.isEmpty
  | .obj l => !l.isEmpty

/-- A single-quote character, used by Python `repr`. -/
def squote : String := String.singleton (Char.ofNat 39)

def lbrace : String := String.singleton (Char.ofNat 123)

def rbrace : String := String.singleton (Char.ofNat 125)

mutual
/-- Python `repr` of a JSON-decoded value. -/
def pyRepr : JValue → String
  | .null => "None"
  | .bool true => "True"
  | .bool false => "False"
  | .num n => toString n
  | .str s => squote ++ s ++ squote
  | .arr l => "[" ++ String.intercalate ", " (pyReprList l) ++ "]"
  | .obj l => lbrace ++ String.intercalate ", " (pyReprFields l) ++ rbrace

def pyReprList : List JValue → List String
  | [] => []
  | v :: vs => pyRepr v :: pyReprList vs

def pyReprFields : List (String × JValue) → List String
  | [] => []
  | (k, v) :: kvs => (squote ++ k ++ squote ++ ": " ++ pyRepr v) :: pyReprFields kvs
end

/-- Python `str` of a JSON-decoded value (what `print` renders): a string
prints itself, everything else prints its `repr`. -/
def pyStr : JValue → String
  | .str s => s
  | v => pyRepr v

/-- Python type names, as they appear in `AttributeError` messages. -/
def pyTypeName : JValue → String
  | .null => "NoneType"
  | .bool _ => "bool"
  | .num _ => "int"
  | .str _ => "str"
  | .arr _ => "list"
  | .obj _ => "dict"

/-- `json` decoding keeps the last occurrence of a duplicated key, and
`dict.get` returns `None` for a missing key. -/
def jget (fields : List (String × JValue)) (k : String) : JValue :=
  match fields.reverse.lookup k with
  | some v => v
  | none => .null

/-- Python `a or b`: `a` when truthy, else `b`. -/
def pyOr (a b : JValue) : JValue := if truthy a then a else b

/-- `data.get('due_date') or data.get('start_date') or data.get('created')` -/
def selectDate (fields : List (String × JValue)) : JValue :=
  pyOr (jget fields "due_date") (pyOr (jget fields "start_date") (jget fields "created"))

/-- `date_str.replace('Z', '+00:00')`: every occurrence of the single
character `Z` is replaced. -/
def replaceZ : List Char → List Char
  | [] => []
  | c :: rest =>
    if c = 'Z' then '+' :: '0' :: '0' :: ':' :: '0' :: '0' :: replaceZ rest
    else c :: replaceZ rest

/-- Result of `datetime.fromisoformat`: naive wall-clock microseconds since
the epoch, and the UTC offset in microseconds when the string carried one. -/
structure PyDateTime where
  us : Int
  tz : Option Int
deriving DecidableEq, Repr

def microsPerDay : Int := 86400000000

def isLeap (y : Nat) : Bool :=
  y % 4 == 0 && (y % 100 != 0 || y % 400 == 0)

def daysInMonth (y m : Nat) : Nat :=
  if m = 2 then (if isLeap y then 29 else 28)
  else if m = 4 ∨ m = 6 ∨ m = 9 ∨ m = 11 then 30
  else 31

/-- Days from 1970-01-01 to year `y`, month `m`, day `d` of the proleptic
Gregorian calendar (the civil-from-days inverse used by CPython's
`datetime.toordinal`), for `1 ≤ y`. -/
def daysFromCivil (y m d : Nat) : Int :=
  let y' := if m ≤ 2 then y - 1 else y
  let era := y' / 400
  let yoe := y' % 400
  let mp := (m + 9) % 12
  let doy := (153 * mp + 2) / 5 + (d - 1)
  let doe := yoe * 365 + yoe / 4 - yoe / 100 + doy
  (era * 146097 + doe : Int) - 719468

/-- Naive microseconds since the epoch of a wall-clock reading. -/
def naiveMicros (y m d h mi s frac : Nat) : Int :=
  daysFromCivil y m d * microsPerDay
    + (((h * 3600 + mi * 60 + s) * 1000000 + frac : Nat) : Int)

def digitVal (c : Char) : Nat := c.toNat - 48

/-- Two decimal digits. -/
def parse2 : List Char → Option (Nat × List Char)
  | a :: b :: rest =>
    if a.isDigit && b.isDigit then some (digitVal a * 10 + digitVal b, rest)
    else none
  | _ => none

/-- Four decimal digits. -/
def parse4 : List Char → Option (Nat × List Char)
  | a :: b :: c :: d :: rest =>
    if a.isDigit && b.isDigit && c.isDigit && d.isDigit then
      some (((digitVal a * 10 + digitVal b) * 10 + digitVal c) * 10 + digitVal d, rest)
    else none
  | _ => none

/-- A fractional-second field of one to six digits, scaled to microseconds. -/
def parseFrac (l : List Char) : Option (Nat × List Char) :=
  let ds := l.takeWhile Char.isDigit
  if ds.isEmpty || 6 < ds.length then none
  else
    some (ds.foldl (fun acc c => acc * 10 + digitVal c) 0 * 10 ^ (6 - ds.length),
          l.dropWhile Char.isDigit)

/-- The trailing UTC-offset field: empty input means a naive datetime,
otherwise `+HH:MM[:SS[.frac]]` or `-HH:MM[:SS[.frac]]` with `HH ≤ 23`,
`MM ≤ 59`, `SS ≤ 59` (CPython rejects offsets of a day or more), yielding the
signed offset in microseconds. -/
def parseTZ : List Char → Option (Option Int)
  | [] => some none
  | c :: rest =>
    if c = '+' ∨ c = '-' then
      let sign : Int := if c = '-' then -1 else 1
      match parse2 rest with
      | some (oh, ':' :: r1) =>
        if 24 ≤ oh then none
        else
          match parse2 r1 with
          | none => none
          | some (om, r2) =>
            if 60 ≤ om then none
            else
              match r2 with
              | [] => some (some (sign * ((oh * 3600 + om * 60) * 1000000 : Nat)))
              | ':' :: r3 =>
                match parse2 r3 with
                | none => none
                | some (os, r4) =>
                  if 60 ≤ os then none
                  else
                    match r4 with
                    | [] =>
                      some (some (sign * ((oh * 3600 + om * 60 + os) * 1000000 : Nat)))
                    | '.' :: r5 =>
                      match parseFrac r5 with
                      | some (frac, []) =>
                        some (some (sign * ((oh * 3600 + om * 60 + os) * 1000000 + frac : Nat)))
                      | _ => none
                    | _ => none
              | _ => none
      | _ => none
    else none

/-- The time-of-day part `HH[:MM[:SS[.frac]]]`, returning
`(hour, minute, second, microseconds, rest)`. -/
def parseHMS (l : List Char) : Option (Nat × Nat × Nat × Nat × List Char) :=
  match parse2 l with
  | none => none
  | some (h, r) =>
    if 24 ≤ h then none
    else
      match r with
      | ':' :: r1 =>
        match parse2 r1 with
        | none => none
        | some (mi, r2) =>
          if 60 ≤ mi then none
          else
            match r2 with
            | ':' :: r3 =>
              match parse2 r3 with
              | none => none
              | some (s, r4) =>
                if 60 ≤ s then none
                else
                  match r4 with
                  | '.' :: r5 =>
                    match parseFrac r5 with
                    | none => none
                    | some (frac, r6) => some (h, mi, s, frac, r6)
                  | _ => some (h, mi, s, 0, r4)
            | _ => some (h, mi, 0, 0, r2)
      | _ => some (h, 0, 0, 0, r)

/-- `datetime.fromisoformat`: `YYYY-MM-DD`, optionally followed by any single
separator character, a time of day, and a UTC offset. -/
def parseISO (l : List Char) : Option PyDateTime :=
  match parse4 l with
  | none => none
  | some (y, r0) =>
    match r0 with
    | '-' :: r1 =>
      match parse2 r1 with
      | none => none
      | some (m, r2) =>
        match r2 with
        | '-' :: r3 =>
          match parse2 r3 with
          | none => none
          | some (d, r4) =>
            if y = 0 ∨ m = 0 ∨ 12 < m ∨ d = 0 ∨ daysInMonth y m < d then none
            else
              match r4 with
              | [] => some ⟨naiveMicros y m d 0 0 0 0, none⟩
              | _sep :: r5 =>
                match parseHMS r5 with
                | none => none
                | some (h, mi, s, frac, r6) =>
                  match parseTZ r6 with
                  | none => none
                  | some tz => some ⟨naiveMicros y m d h mi s frac, tz⟩
        | _ => none
    | _ => none

/-- `datetime.fromisoformat(date_str.replace('Z', '+00:00'))`. -/
def pyParse (s : String) : Option PyDateTime :=
  parseISO (replaceZ s.data)

/-- The absolute instant, in microseconds since the epoch, of an aware
datetime with offset `off` microseconds. -/
def awareInstant (dt : PyDateTime) (off : Int) : Int :=
  dt.us - off

/-- `(date - now).days`: a CPython `timedelta` is normalised with
`0 ≤ seconds`, so `.days` is the floor of the difference in days. -/
def dayDiff (dateUs nowUs : Int) : Int :=
  Int.fdiv (dateUs - nowUs) microsPerDay

/-- The label chosen from the day difference (lines 23-32 of the script). -/
def dayLabel (days : Int) : String :=
  if days = 0 then "Today"
  else if days = 1 then "Tomorrow"
  else if days = -1 then "Yesterday"
  else if 0 < days then "in " ++ toString days ++ " days"
  else toString days.natAbs ++ " days ago"

/-- `format_relative_date(date_str)` with the ambient `datetime.now` passed
explicitly.  A falsy argument returns `""`.  For a string: parse failure
(`ValueError`) and a naive result (`TypeError` on `date - now`) are caught and
return the argument; otherwise the day label is produced.  A truthy non-string
raises `AttributeError` at `.replace`, is caught, and the original value is
returned (rendered by `print` via `pyStr`). -/
def format_relative_date (date_str : JValue) (nowUs : Int) : String :=
  if truthy date_str = false then ""
  else
    match date_str with
    | .str s =>
      match pyParse s with
      | none => s
      | some dt =>
        match dt.tz with
        | none => s
        | some off => dayLabel (dayDiff (awareInstant dt off) nowUs)
    | v => pyStr v

/-- Message of the `AttributeError` raised by `data.get` when `data` is not a
dict. -/
def attrErrMsg (v : JValue) : String :=
  squote ++ pyTypeName v ++ squote ++ " object has no attribute " ++ squote ++ "get" ++ squote

/-- Observable outcome of one run: what is printed on stdout (one line, when
any), on stderr, and the exit status. -/
structure RunResult where
  stdout : Option String
  stderr : Option String
  exitCode : Nat
deriving DecidableEq, Repr

/-- `main()` (embedded as `mainRun`): the input is the result of `json.load(sys.stdin)` (`Except.error`
carries the exception text of a read/parse failure).  On a decoded dict the
selected date field is formatted and printed; any exception (including the
`AttributeError` from `.get` on a non-dict) prints `Error: <e>` on stderr and
exits with status 1. -/
def mainRun (input : Except String JValue) (nowUs : Int) : RunResult :=
  match input with
  | .error e => ⟨none, some ("Error: " ++ e), 1⟩
  | .ok v =>
    match v with
    | .obj fields => ⟨some (format_relative_date (selectDate fields) nowUs), none, 0⟩
    | other => ⟨none, some ("Error: " ++ attrErrMsg other), 1⟩

/-! ### Helper lemmas -/

lemma pyParse_empty : pyParse "" = none := by decide

lemma fdiv_microsPerDay (a : Int) : Int.fdiv a microsPerDay = a / microsPerDay :=
  Int.fdiv_eq_ediv a (by norm_num [microsPerDay])

lemma format_str_aware (s : String) (now : Int) (dt : PyDateTime) (off : Int)
    (hp : pyParse s = some dt) (htz : dt.tz = some off) :
    format_relative_date (.str s) now = dayLabel (dayDiff (awareInstant dt off) now) := by
  have hs : s ≠ "" := by
    intro h
    rw [h, pyParse_empty] at hp
    exact Option.noConfusion hp
  unfold format_relative_date
  have ht : truthy (.str s) = true := by simp [truthy, hs]
  rw [ht]
  simp only [hp, htz]
  simp

lemma format_str_naive (s : String) (now : Int) (dt : PyDateTime)
    (hp : pyParse s = some dt) (htz : dt.tz = none) :
    format_relative_date (.str s) now = s := by
  have hs : s ≠ "" := by
    intro h
    rw [h, pyParse_empty] at hp
    exact Option.noConfusion hp
  unfold format_relative_date
  have ht : truthy (.str s) = true := by simp [truthy, hs]
  rw [ht]
  simp only [hp, htz]
  simp

lemma format_str_unparsed (s : String) (now : Int)
    (hp : pyParse s = none) :
    format_relative_date (.str s) now = s := by
  by_cases hs : s = ""
  · subst hs
    unfold format_relative_date
    simp [truthy]
  · unfold format_relative_date
    have ht : truthy (.str s) = true := by simp [truthy, hs]
    rw [ht]
    simp only [hp]
    simp

lemma selectDate_due (fields : List (String × JValue)) (v : JValue)
    (h : jget fields "due_date" = v) (hv : truthy v = true) :
    selectDate fields = v := by
  unfold selectDate pyOr
  rw [h, hv]
  simp

lemma mainRun_obj (fields : List (String × JValue)) (now : Int) :
    mainRun (.ok (.obj fields)) now =
      ⟨some (format_relative_date (selectDate fields) now), none, 0⟩ := rfl

lemma dayDiff_eq (d n q : Int)
    (h1 : q * microsPerDay ≤ d - n) (h2 : d - n < (q + 1) * microsPerDay) :
    dayDiff d n = q := by
  unfold dayDiff
  rw [fdiv_microsPerDay]
  unfold microsPerDay at *
  omega

/-! ### Claims -/

/-- C2: the day difference used by the formatter is the floor of the signed
microsecond duration (date minus now) in whole days: it is characterised by
the floor inequalities, a duration of exactly one day yields 1, one of
23 hours yields 0, and one of −25 hours yields −2. -/
theorem claim_C2 (dateUs nowUs : Int) :
    dayDiff dateUs nowUs * microsPerDay ≤ dateUs - nowUs ∧
    dateUs - nowUs < (dayDiff dateUs nowUs + 1) * microsPerDay ∧
    dayDiff (nowUs + 86400000000) nowUs = 1 ∧
    dayDiff (nowUs + 23 * 3600000000) nowUs = 0 ∧
    dayDiff (nowUs - 25 * 3600000000) nowUs = -2 := by
  simp only [dayDiff, fdiv_microsPerDay]
  simp only [microsPerDay]
  omega

/-- C5: whenever reading or decoding the JSON input fails, the run writes one
`Error: `-prefixed line embedding the underlying error text on stderr, writes
nothing on stdout, and exits with status 1. -/
theorem claim_C5 (e : String) (now : Int) :
    mainRun (.error e) now = ⟨none, some ("Error: " ++ e), 1⟩ := rfl

/-- C8: formatting is a deterministic function of the date value and the
current instant: two runs on the same frozen inputs produce the same output. -/
theorem claim_C8 (v : JValue) (now : Int) (out1 out2 : String)
    (h1 : out1 = format_relative_date v now)
    (h2 : out2 = format_relative_date v now) : out1 = out2 :=
  h1.trans h2.symm

theorem claim_C8_witness :
    format_relative_date (.str "2025-10-13T00:00:00Z") 1760227200000000 =
      format_relative_date (.str "2025-10-13T00:00:00Z") 1760227200000000 :=
  claim_C8 (.str "2025-10-13T00:00:00Z") 1760227200000000 _ _ rfl rfl

/-- C10: valid JSON whose top-level value is not an object makes `data.get`
raise, so the run takes the fatal path: one `Error: ` line on stderr, nothing
on stdout, exit status 1. -/
theorem claim_C10 (v : JValue) (now : Int) (h : ∀ fields, v ≠ .obj fields) :
    mainRun (.ok v) now = ⟨none, some ("Error: " ++ attrErrMsg v), 1⟩ := by
  cases v with
  | obj fields => exact absurd rfl (h fields)
  | null => rfl
  | bool b => rfl
  | num n => rfl
  | str s => rfl
  | arr l => rfl

theorem claim_C10_witness :
    mainRun (.ok (.arr [])) 0 = ⟨none, some ("Error: " ++ attrErrMsg (.arr [])), 1⟩ :=
  claim_C10 (.arr []) 0 (fun _ h => JValue.noConfusion h)

lemma dayLabel_shape (d : Int) :
    dayLabel d =
      (if d = 0 then "Today"
       else if d = 1 then "Tomorrow"
       else if d = -1 then "Yesterday"
       else if 1 < d then "in " ++ toString d ++ " days"
       else toString d.natAbs ++ " days ago") := by
  unfold dayLabel
  split_ifs <;> first | rfl | omega

/-- C3: for a date string that parses to an aware datetime, the formatter maps
the computed day difference `d` to the label: 0 gives `Today`, 1 gives
`Tomorrow`, −1 gives `Yesterday`, `d > 1` gives `in d days`, and everything
below −1 gives `|d| days ago`. -/
theorem claim_C3 (s : String) (now : Int) (dt : PyDateTime) (off : Int)
    (hp : pyParse s = some dt) (htz : dt.tz = some off) :
    format_relative_date (.str s) now =
      (if dayDiff (awareInstant dt off) now = 0 then "Today"
       else if dayDiff (awareInstant dt off) now = 1 then "Tomorrow"
       else if dayDiff (awareInstant dt off) now = -1 then "Yesterday"
       else if 1 < dayDiff (awareInstant dt off) now then
         "in " ++ toString (dayDiff (awareInstant dt off) now) ++ " days"
       else toString (dayDiff (awareInstant dt off) now).natAbs ++ " days ago") := by
  rw [format_str_aware s now dt off hp htz, dayLabel_shape]

theorem claim_C3_witness :
    format_relative_date (.str "2025-10-17T00:00:00Z") 1760227200000000 = "in 5 days" := by
  have h := claim_C3 "2025-10-17T00:00:00Z" 1760227200000000
    ⟨1760659200000000, some 0⟩ 0 (by decide) rfl
  rw [h]
  decide

/-- C4: when the selected date value is a string that does not parse, the run
prints that original string unchanged on stdout and exits with status 0: the
date-value parse failure is never fatal. -/
theorem claim_C4 (fields : List (String × JValue)) (s : String) (now : Int)
    (hsel : selectDate fields = .str s) (hp : pyParse s = none) :
    mainRun (.ok (.obj fields)) now = ⟨some s, none, 0⟩ := by
  rw [mainRun_obj, hsel, format_str_unparsed s now hp]

theorem claim_C4_witness :
    mainRun (.ok (.obj [("due_date", .str "not-a-date")])) 0 =
      ⟨some "not-a-date", none, 0⟩ :=
  claim_C4 [("due_date", .str "not-a-date")] "not-a-date" 0 rfl (by decide)

/-- C7: when `due_date`, `start_date` and `created` are each absent, empty or
null, the run prints the empty string on stdout and exits with status 0. -/
theorem claim_C7 (fields : List (String × JValue)) (now : Int)
    (h1 : jget fields "due_date" = .null ∨ jget fields "due_date" = .str "")
    (h2 : jget fields "start_date" = .null ∨ jget fields "start_date" = .str "")
    (h3 : jget fields "created" = .null ∨ jget fields "created" = .str "") :
    mainRun (.ok (.obj fields)) now = ⟨some "", none, 0⟩ := by
  have hfal : ∀ v : JValue, (v = .null ∨ v = .str "") → truthy v = false := by
    rintro v (rfl | rfl) <;> rfl
  simp only [mainRun, selectDate, pyOr, hfal _ h1, hfal _ h2]
  simp only [Bool.false_eq_true, if_false]
  rcases h3 with h3 | h3 <;> rw [h3] <;> rfl

theorem claim_C7_witness :
    mainRun (.ok (.obj [])) 0 = ⟨some "", none, 0⟩ :=
  claim_C7 [] 0 (Or.inl rfl) (Or.inl rfl) (Or.inl rfl)

/-- C9: a date string that parses to a naive datetime (no offset, no `Z`)
makes the subtraction from the aware current instant fail, so the formatter
falls back to the original string, which the run prints verbatim with exit
status 0. -/
theorem claim_C9 (s : String) (now : Int) (dt : PyDateTime)
    (fields : List (String × JValue))
    (hp : pyParse s = some dt) (htz : dt.tz = none)
    (hsel : selectDate fields = .str s) :
    format_relative_date (.str s) now = s ∧
    mainRun (.ok (.obj fields)) now = ⟨some s, none, 0⟩ := by
  have hf := format_str_naive s now dt hp htz
  refine ⟨hf, ?_⟩
  rw [mainRun_obj, hsel, hf]

theorem claim_C9_witness :
    format_relative_date (.str "2025-10-14") 1760227200000000 = "2025-10-14" ∧
    mainRun (.ok (.obj [("due_date", .str "2025-10-14")])) 1760227200000000 =
      ⟨some "2025-10-14", none, 0⟩ :=
  claim_C9 "2025-10-14" 1760227200000000 ⟨1760400000000000, none⟩
    [("due_date", .str "2025-10-14")] (by decide) rfl rfl

/-- C1 fails on the code: with `due_date` set to the current UTC date at
00:00:00Z and the current instant at noon of that same calendar day, the run
prints `Yesterday`, not `Today` (the floored day difference is −1). -/
theorem claim_C1_counterexample :
    naiveMicros 2025 10 12 0 0 0 0 ≤ naiveMicros 2025 10 12 12 0 0 0 ∧
    naiveMicros 2025 10 12 12 0 0 0 < naiveMicros 2025 10 13 0 0 0 0 ∧
    mainRun (.ok (.obj [("due_date", .str "2025-10-12T00:00:00Z")]))
      (naiveMicros 2025 10 12 12 0 0 0) = ⟨some "Yesterday", none, 0⟩ := by
  decide

/-- C1 amended: with `due_date` parsing to an aware instant at offset 0, the
run prints `Today` only when the current instant equals that instant exactly;
at any strictly later time less than a day after it (in particular anywhere
later on the same calendar day when the instant is a midnight), it prints
`Yesterday`. -/
theorem claim_C1_amended (s : String) (now : Int) (dt : PyDateTime)
    (hp : pyParse s = some dt) (htz : dt.tz = some 0) :
    (now = dt.us →
      mainRun (.ok (.obj [("due_date", .str s)])) now = ⟨some "Today", none, 0⟩) ∧
    (dt.us < now → now < dt.us + microsPerDay →
      mainRun (.ok (.obj [("due_date", .str s)])) now = ⟨some "Yesterday", none, 0⟩) := by
  have hs : s ≠ "" := by
    intro h
    rw [h, pyParse_empty] at hp
    exact Option.noConfusion hp
  have hsel : selectDate [("due_date", .str s)] = .str s :=
    selectDate_due _ _ rfl (by simp [truthy, hs])
  have hf := format_str_aware s now dt 0 hp htz
  constructor
  · intro hnow
    rw [mainRun_obj, hsel, hf]
    have hd : dayDiff (awareInstant dt 0) now = 0 :=
      dayDiff_eq _ _ _ (by simp only [awareInstant, microsPerDay]; omega)
        (by simp only [awareInstant, microsPerDay]; omega)
    rw [hd]
    rfl
  · intro hlt hub
    rw [mainRun_obj, hsel, hf]
    have hd : dayDiff (awareInstant dt 0) now = -1 :=
      dayDiff_eq _ _ _ (by simp only [awareInstant, microsPerDay] at *; omega)
        (by simp only [awareInstant, microsPerDay] at *; omega)
    rw [hd]
    rfl

theorem claim_C1_amended_witness :
    mainRun (.ok (.obj [("due_date", .str "2025-10-12T00:00:00Z")]))
      (naiveMicros 2025 10 12 18 30 0 0) = ⟨some "Yesterday", none, 0⟩ :=
  (claim_C1_amended "2025-10-12T00:00:00Z" (naiveMicros 2025 10 12 18 30 0 0)
    ⟨1760227200000000, some 0⟩ (by decide) rfl).2 (by decide) (by decide)

/-- C6: the date value handed to the formatter is the first truthy value of
`due_date`, `start_date`, `created` in that order; in particular a non-empty
`due_date` string determines the output regardless of `start_date`. -/
theorem claim_C6 (fields : List (String × JValue)) (now : Int) :
    (truthy (jget fields "due_date") = true →
      selectDate fields = jget fields "due_date") ∧
    (truthy (jget fields "due_date") = false →
      truthy (jget fields "start_date") = true →
      selectDate fields = jget fields "start_date") ∧
    (truthy (jget fields "due_date") = false →
      truthy (jget fields "start_date") = false →
      selectDate fields = jget fields "created") ∧
    (∀ s : String, jget fields "due_date" = .str s → s ≠ "" →
      mainRun (.ok (.obj fields)) now =
        ⟨some (format_relative_date (.str s) now), none, 0⟩) := by
  refine ⟨?_, ?_, ?_, ?_⟩
  · intro h
    unfold selectDate pyOr
    rw [h]
    simp
  · intro h1 h2
    unfold selectDate pyOr
    rw [h1, h2]
    simp
  · intro h1 h2
    unfold selectDate pyOr
    rw [h1, h2]
    simp
  · intro s hdue hstrue
    have hsel := selectDate_due fields (.str s) hdue (by simp [truthy, hstrue])
    rw [mainRun_obj, hsel]

theorem claim_C6_witness :
    mainRun (.ok (.obj [("due_date", .str "2025-10-17T00:00:00Z"),
        ("start_date", .str "2025-10-07T00:00:00Z")])) 1760227200000000 =
      ⟨some "in 5 days", none, 0⟩ := by
  have h := (claim_C6 [("due_date", .str "2025-10-17T00:00:00Z"),
      ("start_date", .str "2025-10-07T00:00:00Z")] 1760227200000000).2.2.2
      "2025-10-17T00:00:00Z" rfl (by decide)
  rw [h]
  decide
